import Mathlib

/-!
Shallow embedding of the data-reconciliation pipeline of
`src/data_fetcher.py` (wa-gas-dashboard-v2).

Modelling conventions:
* A pandas DataFrame is a `Table`: the list of (lower-cased) column names
  plus a list of rows, each row an association list from column name to
  `Cell`.  A cell is a string, a number (ℚ, standing for the float values
  of the CSV), an already-parsed date (an `Int` day number), or NA/NaN.
* `pd.to_datetime(col, errors="coerce")` is modelled by `parseDate`: a
  `Cell.date` parses, anything else coerces to NaT (`none`), and
  `dropna` then removes those rows.
* The network/cache layer (`fetch_csv`) is I/O, so the pipeline functions
  are parametrised by the tables / cleaned record lists it would return;
  `build_supply_profile` takes the cleaned nameplate and MTO record sets,
  `get_model` takes the supply and demand tables.  `pd.Timestamp.now()`
  in `build_supply_profile` is the extra `today` parameter.
* A pandas groupby-sum produces one row per distinct key, keys sorted
  ascending, and skips NaN within a group (an all-NaN group sums to 0);
  this is `groupSupply` / `build_demand_profile`.  A left merge against a
  unique-keyed right table is a lookup (`findVal`), missing keys giving
  NaN which the subsequent `fillna(0)` turns into 0.
-/

namespace GasDash

/-- One cell of a raw source table. -/
inductive Cell where
  | str (s : String)
  | num (q : ℚ)
  | date (d : Int)
  | na
  deriving DecidableEq, Repr

/-- A raw source table: lower-cased column names plus rows. -/
structure Table where
  cols : List String
  rows : List (List (String × Cell))
  deriving DecidableEq, Repr

/-- Column access inside a row (absent column reads as NA). -/
def getCell (r : List (String × Cell)) (c : String) : Cell :=
  match r.find? (fun p => p.1 == c) with
  | some p => p.2
  | none => Cell.na

/-- String value of a cell (facility names are strings in the source). -/
def cellStr : Cell → String
  | Cell.str s => s
  | _ => ""

/-- Numeric value of a cell; non-numeric / NA cells behave as NaN. -/
def toNum : Cell → Option ℚ
  | Cell.num q => some q
  | _ => none

/-- Model of `pd.to_datetime(_, errors="coerce")` on one cell: a date cell
parses, everything else coerces to NaT. -/
def parseDate : Cell → Option Int
  | Cell.date d => some d
  | _ => none

/-- `production_variants = ['production', 'Production', 'PRODUCTION', 'prod']`
(`clean_nameplate` and `clean_mto`, src/data_fetcher.py lines 68 and 104). -/
def production_variants : List String :=
  ["production", "Production", "PRODUCTION", "prod"]

/-- `df['facilitytype'].isin(production_variants)` for one row: exact
string membership in the fixed variant list. -/
def isProd (r : List (String × Cell)) : Bool :=
  match getCell r "facilitytype" with
  | Cell.str s => production_variants.contains s
  | _ => false

/-- `for col in cands: if col in df.columns: ... break` — the first
candidate column name that is present. -/
def firstCol (cands : List String) (cols : List String) : Option String :=
  cands.find? (fun c => cols.contains c)

/-- Ordered capacity-column synonyms of `clean_nameplate` (line 80). -/
def nameplateCapCands : List String := ["capacityquantity", "capacity", "nameplaterating"]

/-- Ordered date-column synonyms of `clean_mto` (line 113). -/
def mtoDateCands : List String := ["fromgasdate", "gasdate", "date"]

/-- Ordered capacity-column synonyms of `clean_mto` (line 124). -/
def mtoCapCands : List String := ["outlookquantity", "capacity", "quantity"]

/-- Ordered date-column synonyms of `build_demand_profile` (line 192). -/
def demandDateCands : List String := ["gasdate", "date", "gasday"]

/-- Output row of `clean_nameplate`. -/
structure NameplateRow where
  FacilityName : String
  TJ_Nameplate : Option ℚ
  deriving DecidableEq, Repr

/-- Output row of `clean_mto` (GasDay already parsed). -/
structure CapacityRow where
  FacilityName : String
  GasDay : Int
  TJ_Available : Option ℚ
  deriving DecidableEq, Repr

/-- Row of the supply table built by `build_supply_profile`. -/
structure SupplyRow where
  FacilityName : String
  GasDay : Int
  TJ_Available : Option ℚ
  TJ_Nameplate : Option ℚ
  deriving DecidableEq, Repr

/-- Output row of `build_demand_profile`. -/
structure DemandRow where
  GasDay : Int
  TJ_Demand : ℚ
  deriving DecidableEq, Repr

/-- Row of the DailyModel built by `get_model`. -/
structure ModelRow where
  GasDay : Int
  TJ_Demand : ℚ
  TJ_Available : ℚ
  Shortfall : ℚ
  deriving DecidableEq, Repr

/-- `clean_nameplate(df)` (src/data_fetcher.py lines 62-96): filter to the
production facility-class variants (all-False mask when the class column
is absent), return the empty typed table when nothing matched or no
capacity synonym is present, else select and rename. -/
def clean_nameplate (df : Table) : List NameplateRow :=
  let prodRows := if df.cols.contains "facilitytype" then df.rows.filter isProd else []
  if prodRows.isEmpty then []
  else
    match firstCol nameplateCapCands df.cols with
    | none => []
    | some c =>
        prodRows.map (fun r => ⟨cellStr (getCell r "facilityname"), toNum (getCell r c)⟩)

/-- `clean_mto(df)` (src/data_fetcher.py lines 98-145): production-class
filter (empty when nothing matches), then first date synonym and first
capacity synonym (empty typed table when either is missing), then date
parsing with `errors="coerce"` and `dropna`, then select and rename. -/
def clean_mto (df : Table) : List CapacityRow :=
  let prodRows := if df.cols.contains "facilitytype" then df.rows.filter isProd else []
  if prodRows.isEmpty then []
  else
    match firstCol mtoDateCands df.cols with
    | none => []
    | some dcol =>
        match firstCol mtoCapCands df.cols with
        | none => []
        | some ccol =>
            prodRows.filterMap (fun r =>
              (parseDate (getCell r dcol)).map (fun d =>
                ⟨cellStr (getCell r "facilityname"), d, toNum (getCell r ccol)⟩))

/-- The rows of a flows table whose date cell parses, paired with their
parsed date (`pd.to_datetime` + `dropna`, lines 201-202). -/
def parsedRows (flows : Table) (dcol : String) : List (Int × List (String × Cell)) :=
  flows.rows.filterMap (fun r => (parseDate (getCell r dcol)).map (fun d => (d, r)))

/-- Group sum of the `demand` column over the date-parseable rows with a
given GasDay (pandas sum skips NaN; an all-NaN group sums to 0). -/
def demandSum (flows : Table) (dcol : String) (g : Int) : ℚ :=
  (((parsedRows flows dcol).filter (fun p => p.1 == g)).map
    (fun p => (toNum (getCell p.2 "demand")).getD 0)).sum

/-- `build_demand_profile()` (src/data_fetcher.py lines 187-212),
parametrised by the fetched flows table: first date synonym (empty when
none), date parsing + dropna, then `groupby(date_col)['demand'].sum()`
(one row per distinct date, keys ascending) when the `demand` column is
present, empty typed table otherwise. -/
def build_demand_profile (flows : Table) : List DemandRow :=
  match firstCol demandDateCands flows.cols with
  | none => []
  | some dcol =>
      if flows.cols.contains "demand" then
        (((parsedRows flows dcol).map Prod.fst).dedup.insertionSort (· ≤ ·)).map
          (fun g => ⟨g, demandSum flows dcol g⟩)
      else []

/-- The nameplate-only fallback of `build_supply_profile` (lines 157-171):
for each nameplate row in order, one synthesized row per day of
`pd.date_range(start=now, periods=30, freq='D')`, with the nameplate
value as both TJ_Available and TJ_Nameplate. -/
def synthRows : List NameplateRow → Int → List SupplyRow
  | [], _ => []
  | f :: rest, today =>
      ((List.range 30).map
        (fun i => ⟨f.FacilityName, today + (i : Int), f.TJ_Nameplate, f.TJ_Nameplate⟩))
        ++ synthRows rest today

/-- `mto.merge(nameplate, on="FacilityName", how="left")` (line 181): each
MTO row is joined with every nameplate row of the same facility; a row
with no match keeps NaN nameplate. -/
def leftMergeNameplate (mto : List CapacityRow) (np : List NameplateRow) : List SupplyRow :=
  mto.flatMap (fun m =>
    let ms := np.filter (fun n => n.FacilityName == m.FacilityName)
    if ms.isEmpty then [⟨m.FacilityName, m.GasDay, m.TJ_Available, none⟩]
    else ms.map (fun n => ⟨m.FacilityName, m.GasDay, m.TJ_Available, n.TJ_Nameplate⟩))

/-- `supply["TJ_Available"] = supply["TJ_Available"].fillna(supply["TJ_Nameplate"])`
(line 182). -/
def fillAvail (s : List SupplyRow) : List SupplyRow :=
  s.map (fun r =>
    match r.TJ_Available with
    | some q => ⟨r.FacilityName, r.GasDay, some q, r.TJ_Nameplate⟩
    | none => ⟨r.FacilityName, r.GasDay, r.TJ_Nameplate, r.TJ_Nameplate⟩)

/-- `build_supply_profile()` (src/data_fetcher.py lines 147-185),
parametrised by the cleaned nameplate and MTO record sets and by the
current date: both empty → empty; MTO empty → synthesized 30-day
nameplate projection; nameplate empty → MTO with TJ_Nameplate copied
from TJ_Available; else left-merge and fillna. -/
def build_supply_profile (np : List NameplateRow) (mto : List CapacityRow)
    (today : Int) : List SupplyRow :=
  if np.isEmpty && mto.isEmpty then []
  else if mto.isEmpty then
    if !np.isEmpty then synthRows np today else []
  else if np.isEmpty then
    mto.map (fun m => ⟨m.FacilityName, m.GasDay, m.TJ_Available, m.TJ_Available⟩)
  else
    fillAvail (leftMergeNameplate mto np)

/-- Sum of TJ_Available over all supply rows of one GasDay (pandas
groupby sum: NaN cells skipped, all-NaN or empty group sums to 0). -/
def availSum (sup : List SupplyRow) (g : Int) : ℚ :=
  ((sup.filter (fun r => r.GasDay == g)).map (fun r => r.TJ_Available.getD 0)).sum

/-- `sup.groupby("GasDay")["TJ_Available"].sum().reset_index()` (line 231):
one row per distinct GasDay, keys sorted ascending. -/
def groupSupply (sup : List SupplyRow) : List (Int × ℚ) :=
  (((sup.map (fun r => r.GasDay)).dedup.insertionSort (· ≤ ·))).map
    (fun g => (g, availSum sup g))

/-- Lookup in a keyed list — the left merge of `dem` with the
unique-keyed `total_supply` (line 234) reduces to this lookup, a missing
key giving NaN. -/
def findVal (l : List (Int × ℚ)) (g : Int) : Option ℚ :=
  (l.find? (fun p => p.1 == g)).map (fun p => p.2)

/-- `get_model()` (src/data_fetcher.py lines 214-239), parametrised by the
supply and demand tables it builds: demand empty → `(sup, dem)` with the
empty demand-shaped table (modelled as the empty model list); supply
empty → demand with TJ_Available 0 and Shortfall 0 − TJ_Demand; else
daily supply totals, left merge onto demand, `fillna(0)`, and
Shortfall = TJ_Available − TJ_Demand. -/
def get_model (sup : List SupplyRow) (dem : List DemandRow) :
    List SupplyRow × List ModelRow :=
  if dem.isEmpty then (sup, [])
  else if sup.isEmpty then
    (sup, dem.map (fun d => ⟨d.GasDay, d.TJ_Demand, 0, 0 - d.TJ_Demand⟩))
  else
    let total := groupSupply sup
    (sup, dem.map (fun d =>
      let avail := (findVal total d.GasDay).getD 0
      ⟨d.GasDay, d.TJ_Demand, avail, avail - d.TJ_Demand⟩))

/-- The row the DailyModel holds for one demand row: demand unchanged,
TJ_Available the day's supply total (0 when no supply row has the day),
Shortfall their difference. -/
def mkModelRow (sup : List SupplyRow) (d : DemandRow) : ModelRow :=
  ⟨d.GasDay, d.TJ_Demand, availSum sup d.GasDay, availSum sup d.GasDay - d.TJ_Demand⟩

/-! Concrete tables used by counterexamples and witnesses.  Day number
20301 stands for the calendar date 2025-08-01. -/

/-- A nameplate table with a single production facility `FacilityA`. -/
def npTableA : Table :=
  ⟨["facilitytype", "facilityname", "capacityquantity"],
   [[("facilitytype", Cell.str "Production"), ("facilityname", Cell.str "FacilityA"),
     ("capacityquantity", Cell.num 200)]]⟩

/-- A capacity-outlook table publishing two overlapping rows for
(FacilityA, 2025-08-01) with TJ_Available 100 and 50. -/
def mtoTableDup : Table :=
  ⟨["facilitytype", "facilityname", "fromgasdate", "outlookquantity"],
   [[("facilitytype", Cell.str "Production"), ("facilityname", Cell.str "FacilityA"),
     ("fromgasdate", Cell.date 20301), ("outlookquantity", Cell.num 100)],
    [("facilitytype", Cell.str "Production"), ("facilityname", Cell.str "FacilityA"),
     ("fromgasdate", Cell.date 20301), ("outlookquantity", Cell.num 50)]]⟩

/-- A nameplate table whose class label " production" differs from the
target only by surrounding whitespace. -/
def npTableWs : Table :=
  ⟨["facilitytype", "facilityname", "capacityquantity"],
   [[("facilitytype", Cell.str " production"), ("facilityname", Cell.str "FacilityB"),
     ("capacityquantity", Cell.num 10)]]⟩

/-- A nameplate table without the facility-class column. -/
def npTableNoType : Table :=
  ⟨["facilityname", "capacityquantity"],
   [[("facilityname", Cell.str "FacilityC"), ("capacityquantity", Cell.num 10)]]⟩

/-- A flows table whose date column is named `gasday`. -/
def flowsGasday : Table :=
  ⟨["gasday", "demand", "zonename"],
   [[("gasday", Cell.date 20301), ("demand", Cell.num 7), ("zonename", Cell.str "WA")],
    [("gasday", Cell.date 20302), ("demand", Cell.num 9), ("zonename", Cell.str "WA")]]⟩

/-- The same flows table after the upstream rename of `gasday` to `gasdate`. -/
def flowsGasdate : Table :=
  ⟨["gasdate", "demand", "zonename"],
   [[("gasdate", Cell.date 20301), ("demand", Cell.num 7), ("zonename", Cell.str "WA")],
    [("gasdate", Cell.date 20302), ("demand", Cell.num 9), ("zonename", Cell.str "WA")]]⟩

/-- A flows table with no recognised date column. -/
def flowsNoDate : Table :=
  ⟨["day", "demand"], [[("day", Cell.date 20301), ("demand", Cell.num 7)]]⟩

/-- A flows table with one date shared by two rows of different zones. -/
def flowsZones : Table :=
  ⟨["gasdate", "demand", "zonename"],
   [[("gasdate", Cell.date 20301), ("demand", Cell.num 10), ("zonename", Cell.str "Zone A")],
    [("gasdate", Cell.date 20301), ("demand", Cell.num 20), ("zonename", Cell.str "Zone B")]]⟩

/-- An MTO table with one parseable and one unparseable date. -/
def mtoTableBadDate : Table :=
  ⟨["facilitytype", "facilityname", "fromgasdate", "outlookquantity"],
   [[("facilitytype", Cell.str "production"), ("facilityname", Cell.str "FacilityD"),
     ("fromgasdate", Cell.date 20301), ("outlookquantity", Cell.num 40)],
    [("facilitytype", Cell.str "production"), ("facilityname", Cell.str "FacilityD"),
     ("fromgasdate", Cell.str "not a date"), ("outlookquantity", Cell.num 41)]]⟩

/-! Helper lemmas shared by the claim theorems. -/

theorem findVal_map_keys (f : Int → ℚ) (keys : List Int) (x : Int) :
    findVal (keys.map (fun g => (g, f g))) x = if x ∈ keys then some (f x) else none := by
  induction keys with
  | nil => simp [findVal]
  | cons k ks ih =>
    rcases eq_or_ne k x with h | h
    · subst h
      simp [findVal, List.find?_cons_of_pos]
    · have h1 : findVal ((k :: ks).map (fun g => (g, f g))) x
          = findVal (ks.map (fun g => (g, f g))) x := by
        simp only [List.map_cons]
        unfold findVal
        rw [List.find?_cons_of_neg]
        simpa using h
      rw [h1, ih]
      have hor : (x = k ∨ x ∈ ks) ↔ x ∈ ks := or_iff_right (fun hx => h hx.symm)
      simp [List.mem_cons, hor]

theorem sortedKeys_mem (sup : List SupplyRow) (x : Int) :
    x ∈ (sup.map (fun r => r.GasDay)).dedup.insertionSort (· ≤ ·)
      ↔ x ∈ sup.map (fun r => r.GasDay) := by
  rw [(List.perm_insertionSort _ _).mem_iff, List.mem_dedup]

theorem availSum_of_not_mem (sup : List SupplyRow) (x : Int)
    (h : x ∉ sup.map (fun r => r.GasDay)) : availSum sup x = 0 := by
  have hnil : sup.filter (fun r => r.GasDay == x) = [] := by
    rw [List.filter_eq_nil_iff]
    intro r hr hbeq
    exact h (List.mem_map.mpr ⟨r, hr, by simpa using hbeq⟩)
  unfold availSum
  rw [hnil]
  rfl

theorem findVal_groupSupply (sup : List SupplyRow) (x : Int) :
    (findVal (groupSupply sup) x).getD 0 = availSum sup x := by
  unfold groupSupply
  rw [findVal_map_keys]
  by_cases h : x ∈ (sup.map (fun r => r.GasDay)).dedup.insertionSort (· ≤ ·)
  · simp [h]
  · have hx : x ∉ sup.map (fun r => r.GasDay) := fun hm => h ((sortedKeys_mem sup x).mpr hm)
    simp [h, availSum_of_not_mem sup x hx]

theorem get_model_snd (sup : List SupplyRow) (dem : List DemandRow) :
    (get_model sup dem).2 = dem.map (mkModelRow sup) := by
  unfold get_model
  cases dem with
  | nil => rfl
  | cons d ds =>
    by_cases hs : sup.isEmpty = true
    · have hsup : sup = [] := by simpa using hs
      subst hsup
      simp [mkModelRow, availSum]
    · simp only [List.isEmpty_cons, hs, Bool.false_eq_true, if_false]
      apply List.map_congr_left
      intro a _
      simp [mkModelRow, findVal_groupSupply]

theorem synthRows_length (np : List NameplateRow) (t : Int) :
    (synthRows np t).length = np.length * 30 := by
  induction np with
  | nil => simp [synthRows]
  | cons f rest ih =>
    simp only [synthRows, List.length_append, List.length_map, List.length_range,
      List.length_cons, ih]
    omega

theorem synthRows_mem (np : List NameplateRow) (t : Int) (r : SupplyRow)
    (h : r ∈ synthRows np t) :
    ∃ f ∈ np, r.FacilityName = f.FacilityName ∧ r.TJ_Available = f.TJ_Nameplate ∧
      r.TJ_Nameplate = f.TJ_Nameplate ∧ ∃ i : ℕ, i < 30 ∧ r.GasDay = t + i := by
  induction np with
  | nil => simp [synthRows] at h
  | cons f rest ih =>
    simp only [synthRows, List.mem_append, List.mem_map, List.mem_range] at h
    rcases h with ⟨i, hi, rfl⟩ | h
    · exact ⟨f, by simp, rfl, rfl, rfl, i, hi, rfl⟩
    · obtain ⟨g, hg, hprops⟩ := ih h
      exact ⟨g, by simp [hg], hprops⟩

theorem synthRows_mem_of (np : List NameplateRow) (t : Int) (f : NameplateRow)
    (hf : f ∈ np) (i : ℕ) (hi : i < 30) :
    (⟨f.FacilityName, t + (i : Int), f.TJ_Nameplate, f.TJ_Nameplate⟩ : SupplyRow)
      ∈ synthRows np t := by
  induction np with
  | nil => cases hf
  | cons g rest ih =>
    simp only [synthRows, List.mem_append]
    rcases List.mem_cons.mp hf with rfl | hf2
    · exact Or.inl (List.mem_map.mpr ⟨i, List.mem_range.mpr hi, rfl⟩)
    · exact Or.inr (ih hf2)

theorem length_filterMap_isSome {α β γ : Type} (p : α → Option β) (f : α → β → γ)
    (l : List α) :
    (l.filterMap (fun r => (p r).map (f r))).length = l.countP (fun r => (p r).isSome) := by
  induction l with
  | nil => rfl
  | cons a l ih =>
    cases hp : p a <;>
      simp [List.filterMap_cons, hp, List.countP_cons, ih]

theorem build_supply_mto_only (mto : List CapacityRow) (t : Int) :
    build_supply_profile [] mto t
      = mto.map (fun m => ⟨m.FacilityName, m.GasDay, m.TJ_Available, m.TJ_Available⟩) := by
  cases mto with
  | nil => rfl
  | cons m ms => rfl

theorem build_supply_nameplate_only (np : List NameplateRow) (t : Int) :
    build_supply_profile np [] t = synthRows np t := by
  cases np with
  | nil => rfl
  | cons f fs => rfl

theorem firstCol_head (c : String) (rest : List String) (cols : List String)
    (hc : c ∈ cols) : firstCol (c :: rest) cols = some c := by
  unfold firstCol
  exact List.find?_cons_of_pos _ (by simpa using hc)

theorem build_demand_profile_eq (flows : Table) (hd : "gasdate" ∈ flows.cols)
    (hm : "demand" ∈ flows.cols) :
    build_demand_profile flows =
      (((parsedRows flows "gasdate").map Prod.fst).dedup.insertionSort (· ≤ ·)).map
        (fun g => ⟨g, demandSum flows "gasdate" g⟩) := by
  have hfc : firstCol demandDateCands flows.cols = some "gasdate" := by
    unfold demandDateCands
    exact firstCol_head _ _ _ hd
  unfold build_demand_profile
  rw [hfc]
  simp [hm]

theorem clean_nameplate_length (df : Table) (ht : "facilitytype" ∈ df.cols)
    (hc : "capacityquantity" ∈ df.cols) :
    (clean_nameplate df).length = df.rows.countP isProd := by
  have ht' : df.cols.contains "facilitytype" = true := by simpa using ht
  have hfc : firstCol nameplateCapCands df.cols = some "capacityquantity" := by
    unfold nameplateCapCands
    exact firstCol_head _ _ _ hc
  unfold clean_nameplate
  rw [if_pos ht']
  by_cases he : (df.rows.filter isProd).isEmpty = true
  · have hnil : df.rows.filter isProd = [] := by simpa using he
    rw [if_pos he, List.countP_eq_length_filter, hnil]
    rfl
  · rw [if_neg he]
    simp only [hfc]
    rw [List.length_map, List.countP_eq_length_filter]

theorem clean_mto_length (df : Table) (ht : "facilitytype" ∈ df.cols)
    (hd : "fromgasdate" ∈ df.cols) (hc : "outlookquantity" ∈ df.cols) :
    (clean_mto df).length
      = (df.rows.filter isProd).countP
          (fun r => (parseDate (getCell r "fromgasdate")).isSome) := by
  have ht' : df.cols.contains "facilitytype" = true := by simpa using ht
  have hfd : firstCol mtoDateCands df.cols = some "fromgasdate" := by
    unfold mtoDateCands
    exact firstCol_head _ _ _ hd
  have hfc : firstCol mtoCapCands df.cols = some "outlookquantity" := by
    unfold mtoCapCands
    exact firstCol_head _ _ _ hc
  unfold clean_mto
  rw [if_pos ht']
  by_cases he : (df.rows.filter isProd).isEmpty = true
  · have hnil : df.rows.filter isProd = [] := by simpa using he
    rw [if_pos he, hnil]
    rfl
  · rw [if_neg he]
    simp only [hfd, hfc]
    exact length_filterMap_isSome _ _ _

theorem clean_mto_of_date_none (df : Table)
    (h : firstCol mtoDateCands df.cols = none) : clean_mto df = [] := by
  unfold clean_mto
  by_cases hb : df.cols.contains "facilitytype" = true
  · rw [if_pos hb]
    by_cases he : (df.rows.filter isProd).isEmpty = true
    · rw [if_pos he]
    · rw [if_neg he]
      simp only [h]
  · rw [if_neg hb]
    rfl

theorem clean_mto_of_cap_none (df : Table)
    (h : firstCol mtoCapCands df.cols = none) : clean_mto df = [] := by
  unfold clean_mto
  by_cases hb : df.cols.contains "facilitytype" = true
  · rw [if_pos hb]
    by_cases he : (df.rows.filter isProd).isEmpty = true
    · rw [if_pos he]
    · rw [if_neg he]
      cases hfd : firstCol mtoDateCands df.cols with
      | none => simp only [hfd]
      | some dcol => simp only [hfd, h]
  · rw [if_neg hb]
    rfl

theorem build_demand_of_date_none (flows : Table)
    (h : firstCol demandDateCands flows.cols = none) :
    build_demand_profile flows = [] := by
  unfold build_demand_profile
  rw [h]

theorem firstCol_gasday (cols : List String) (h1 : "gasdate" ∉ cols)
    (h2 : "date" ∉ cols) (h3 : "gasday" ∈ cols) :
    firstCol demandDateCands cols = some "gasday" := by
  simp [firstCol, demandDateCands, List.find?, h1, h2, h3]

example : clean_mto mtoTableDup =
    [⟨"FacilityA", 20301, some 100⟩, ⟨"FacilityA", 20301, some 50⟩] := by decide
example : clean_nameplate npTableA = [⟨"FacilityA", some 200⟩] := by decide
example : build_supply_profile (clean_nameplate npTableA) (clean_mto mtoTableDup) 0 =
    [⟨"FacilityA", 20301, some 100, some 200⟩, ⟨"FacilityA", 20301, some 50, some 200⟩] := by
  decide
example : build_demand_profile flowsGasday = [⟨20301, 7⟩, ⟨20302, 9⟩] := by
  with_unfolding_all rfl
example : build_demand_profile flowsZones = [⟨20301, 30⟩] := by with_unfolding_all rfl
example : clean_nameplate npTableWs = [] := by decide
example : clean_mto mtoTableBadDate = [⟨"FacilityD", 20301, some 40⟩] := by decide
example :
    (get_model (build_supply_profile (clean_nameplate npTableA) (clean_mto mtoTableDup) 0)
      (build_demand_profile flowsGasdate)).2 =
    [⟨20301, 7, 150, 143⟩, ⟨20302, 9, 0, -9⟩] := by with_unfolding_all rfl

/-! Claim theorems. -/

/-- C1, counterexample: the claim that the aggregated supply output has no
two rows sharing the same (FacilityName, GasDay) key — and in particular
that two capacity-outlook rows for (FacilityA, 2025-08-01) with
TJ_Available 100 and 50 collapse to one row with 150 — is false on the
code: `build_supply_profile` performs no (FacilityName, GasDay)
deduplication, so the concrete input yields two rows for the key and no
row carries 150. -/
theorem c1_dedup_counterexample :
    ((build_supply_profile (clean_nameplate npTableA) (clean_mto mtoTableDup) 0).countP
        (fun r => decide (r.FacilityName = "FacilityA") && decide (r.GasDay = 20301))) = 2
    ∧ ((build_supply_profile (clean_nameplate npTableA) (clean_mto mtoTableDup) 0).countP
        (fun r => decide (r.FacilityName = "FacilityA") && decide (r.GasDay = 20301)
          && decide (r.TJ_Available = some 150))) = 0 := by
  exact ⟨by decide, by decide⟩

/-- C1, amended: the supply pipeline performs no (FacilityName, GasDay)
deduplication — duplicate-key rows pass through `build_supply_profile`
one output row per input row, each keeping its own TJ_Available — and
the summation happens only in the per-day aggregation of `get_model`:
for the scenario input the two rows for (FacilityA, 2025-08-01) both
survive, and the day's supply total is 100 + 50 = 150. -/
theorem c1_dedup_amended :
    (∀ (mto : List CapacityRow) (t : Int),
      build_supply_profile [] mto t
        = mto.map (fun m => ⟨m.FacilityName, m.GasDay, m.TJ_Available, m.TJ_Available⟩))
    ∧ ((build_supply_profile (clean_nameplate npTableA) (clean_mto mtoTableDup) 0).countP
        (fun r => decide (r.FacilityName = "FacilityA") && decide (r.GasDay = 20301))) = 2
    ∧ availSum (build_supply_profile (clean_nameplate npTableA) (clean_mto mtoTableDup) 0)
        20301 = 150 := by
  exact ⟨build_supply_mto_only, by decide, by with_unfolding_all rfl⟩

/-- C2: every row of the DailyModel returned by `get_model` satisfies
Shortfall = TJ_Available − TJ_Demand exactly, recomputed from the row's
own TJ_Available and TJ_Demand values. -/
theorem c2_shortfall_recomputed (sup : List SupplyRow) (dem : List DemandRow)
    (r : ModelRow) (hr : r ∈ (get_model sup dem).2) :
    r.Shortfall = r.TJ_Available - r.TJ_Demand := by
  rw [get_model_snd] at hr
  obtain ⟨d, _, rfl⟩ := List.mem_map.mp hr
  rfl

/-- C2, witness: a concrete DailyModel row of a concrete pipeline run. -/
theorem c2_shortfall_witness :
    ((⟨20301, 7, 150, 143⟩ : ModelRow)
        ∈ (get_model (build_supply_profile (clean_nameplate npTableA) (clean_mto mtoTableDup) 0)
            (build_demand_profile flowsGasdate)).2)
    ∧ (⟨20301, 7, 150, 143⟩ : ModelRow).Shortfall
        = (⟨20301, 7, 150, 143⟩ : ModelRow).TJ_Available
          - (⟨20301, 7, 150, 143⟩ : ModelRow).TJ_Demand := by
  have hmem : (⟨20301, 7, 150, 143⟩ : ModelRow)
      ∈ (get_model (build_supply_profile (clean_nameplate npTableA) (clean_mto mtoTableDup) 0)
          (build_demand_profile flowsGasdate)).2 := by
    have h : (get_model (build_supply_profile (clean_nameplate npTableA)
          (clean_mto mtoTableDup) 0) (build_demand_profile flowsGasdate)).2
        = [⟨20301, 7, 150, 143⟩, ⟨20302, 9, 0, -9⟩] := by with_unfolding_all rfl
    rw [h]
    simp
  exact ⟨hmem, c2_shortfall_recomputed _ _ _ hmem⟩

/-- C3: when the day-specific capacity-outlook result is empty,
`build_supply_profile` synthesizes exactly N × 30 rows from an N-row
nameplate result — one per nameplate row per day of the 30-day horizon
starting at the current date — each with TJ_Available equal to that
facility's nameplate value. -/
theorem c3_nameplate_fallback (np : List NameplateRow) (t : Int) :
    build_supply_profile np [] t = synthRows np t
    ∧ (build_supply_profile np [] t).length = np.length * 30
    ∧ (∀ r ∈ build_supply_profile np [] t,
        ∃ f ∈ np, r.FacilityName = f.FacilityName ∧ r.TJ_Available = f.TJ_Nameplate ∧
          r.TJ_Nameplate = f.TJ_Nameplate ∧ ∃ i : ℕ, i < 30 ∧ r.GasDay = t + i)
    ∧ (∀ f ∈ np, ∀ i : ℕ, i < 30 →
        (⟨f.FacilityName, t + (i : Int), f.TJ_Nameplate, f.TJ_Nameplate⟩ : SupplyRow)
          ∈ build_supply_profile np [] t) := by
  have he := build_supply_nameplate_only np t
  refine ⟨he, ?_, ?_, ?_⟩
  · rw [he, synthRows_length]
  · intro r hr
    rw [he] at hr
    exact synthRows_mem np t r hr
  · intro f hf i hi
    rw [he]
    exact synthRows_mem_of np t f hf i hi

/-- C3, witness: the single-facility nameplate table projected from day 0
contains the facility's row for day 3 and has 1 × 30 rows. -/
theorem c3_nameplate_fallback_witness :
    ((⟨"FacilityA", some 200⟩ : NameplateRow) ∈ clean_nameplate npTableA ∧ (3 : ℕ) < 30)
    ∧ ((⟨"FacilityA", (0 : Int) + ((3 : ℕ) : Int), some 200, some 200⟩ : SupplyRow)
        ∈ build_supply_profile (clean_nameplate npTableA) [] 0)
    ∧ (build_supply_profile (clean_nameplate npTableA) [] 0).length
        = (clean_nameplate npTableA).length * 30 := by
  refine ⟨⟨by decide, by decide⟩, ?_, (c3_nameplate_fallback (clean_nameplate npTableA) 0).2.1⟩
  exact (c3_nameplate_fallback (clean_nameplate npTableA) 0).2.2.2
    ⟨"FacilityA", some 200⟩ (by decide) 3 (by decide)

/-- C4: the DailyModel has exactly one row per demand-table row, in order,
with TJ_Demand unchanged, TJ_Available the sum of supply TJ_Available
over all supply rows of that GasDay (0 when no supply row has the day),
and Shortfall their difference; in particular with empty supply every
demand day survives with TJ_Available 0 and Shortfall −TJ_Demand. -/
theorem c4_daily_join (sup : List SupplyRow) (dem : List DemandRow) :
    (get_model sup dem).2 = dem.map (mkModelRow sup)
    ∧ (get_model [] dem).2
        = dem.map (fun d => ⟨d.GasDay, d.TJ_Demand, 0, 0 - d.TJ_Demand⟩) := by
  refine ⟨get_model_snd sup dem, ?_⟩
  rw [get_model_snd]
  apply List.map_congr_left
  intro d _
  simp [mkModelRow, availSum]

/-- C5: with an empty demand table `get_model` returns the supply table
together with the empty demand-shaped output; being a total function of
the embedding, it raises nothing. -/
theorem c5_empty_demand (sup : List SupplyRow) : get_model sup [] = (sup, []) := rfl

/-- C6, counterexample: the claim that any record whose facility-class
field equals "production" up to letter case and surrounding whitespace is
retained is false on the code: the filter is an exact `isin` against
['production', 'Production', 'PRODUCTION', 'prod'], so the row labelled
" production" (equal to the target after trimming) is rejected. -/
theorem c6_filter_counterexample :
    npTableWs.rows.map (fun r => cellStr (getCell r "facilitytype")) = [" production"]
    ∧ " production" = " " ++ "production"
    ∧ clean_nameplate npTableWs = [] := by
  exact ⟨rfl, rfl, by decide⟩

/-- C6, amended: the Facility Filter retains exactly the rows whose
facility-class field is one of the four exact spellings 'production',
'Production', 'PRODUCTION', 'prod' — no trimming and no general case
folding — so the mixed-case label "Production" is selected while
whitespace or other case variants are not. -/
theorem c6_filter_amended (df : Table) (ht : "facilitytype" ∈ df.cols)
    (hc : "capacityquantity" ∈ df.cols) :
    (clean_nameplate df).length = df.rows.countP isProd
    ∧ "Production" ∈ production_variants
    ∧ " production" ∉ production_variants
    ∧ "pRoduction" ∉ production_variants := by
  exact ⟨clean_nameplate_length df ht hc, by decide, by decide, by decide⟩

/-- C6, witness: the mixed-case "Production" nameplate table passes the
filter (one retained row). -/
theorem c6_filter_witness :
    ("facilitytype" ∈ npTableA.cols ∧ "capacityquantity" ∈ npTableA.cols)
    ∧ (clean_nameplate npTableA).length = npTableA.rows.countP isProd
    ∧ npTableA.rows.countP isProd = 1 := by
  exact ⟨⟨by decide, by decide⟩,
    (c6_filter_amended npTableA (by decide) (by decide)).1, by decide⟩

/-- C7: when the facility-class column is absent, both `clean_nameplate`
and `clean_mto` return the empty result of their canonical output shape —
never any rows (fail closed). -/
theorem c7_fail_closed (df : Table) (h : "facilitytype" ∉ df.cols) :
    clean_nameplate df = [] ∧ clean_mto df = [] := by
  have hc : df.cols.contains "facilitytype" = false := by simpa using h
  have hpr : (if df.cols.contains "facilitytype" = true then df.rows.filter isProd else [])
      = ([] : List (List (String × Cell))) := if_neg (by simpa using h)
  constructor
  · unfold clean_nameplate
    rw [hpr]
    rfl
  · unfold clean_mto
    rw [hpr]
    rfl

/-- C7, witness: a populated table without the class column filters to
empty in both cleaners. -/
theorem c7_fail_closed_witness :
    ("facilitytype" ∉ npTableNoType.cols)
    ∧ clean_nameplate npTableNoType = [] ∧ clean_mto npTableNoType = [] := by
  exact ⟨by decide, c7_fail_closed npTableNoType (by decide)⟩

/-- C8: the Schema Normalizer binds a canonical field to the first
matching synonym of its ordered candidate list (`gasdate` wins when
present; `gasday` is still found when the earlier candidates are absent),
returns the empty typed table without raising when no synonym of a
required field matches (demand date, MTO date, MTO capacity), and the
rename of the demand date column from `gasday` to `gasdate` leaves the
populated output unchanged. -/
theorem c8_schema_normalizer :
    (∀ flows : Table, firstCol demandDateCands flows.cols = none
        → build_demand_profile flows = [])
    ∧ (∀ flows : Table, "gasdate" ∈ flows.cols
        → firstCol demandDateCands flows.cols = some "gasdate")
    ∧ (∀ cols : List String, "gasdate" ∉ cols → "date" ∉ cols → "gasday" ∈ cols
        → firstCol demandDateCands cols = some "gasday")
    ∧ (∀ df : Table, firstCol mtoDateCands df.cols = none → clean_mto df = [])
    ∧ (∀ df : Table, firstCol mtoCapCands df.cols = none → clean_mto df = [])
    ∧ build_demand_profile flowsGasday = build_demand_profile flowsGasdate
    ∧ build_demand_profile flowsGasdate ≠ [] := by
  have e : build_demand_profile flowsGasdate = [⟨20301, 7⟩, ⟨20302, 9⟩] := by
    with_unfolding_all rfl
  refine ⟨build_demand_of_date_none, ?_, firstCol_gasday, clean_mto_of_date_none,
    clean_mto_of_cap_none, by with_unfolding_all rfl, ?_⟩
  · intro flows hd
    unfold demandDateCands
    exact firstCol_head _ _ _ hd
  · rw [e]
    simp

/-- C8, witness: the no-synonym table yields the empty output and the
renamed table binds to `gasdate`. -/
theorem c8_schema_witness :
    (firstCol demandDateCands flowsNoDate.cols = none)
    ∧ build_demand_profile flowsNoDate = []
    ∧ ("gasdate" ∈ flowsGasdate.cols
        ∧ firstCol demandDateCands flowsGasdate.cols = some "gasdate") := by
  exact ⟨by decide, c8_schema_normalizer.1 flowsNoDate (by decide),
    by decide, c8_schema_normalizer.2.1 flowsGasdate (by decide)⟩

/-- C9, counterexample: the claim that demand aggregation is restricted
to the relevant market-wide zone is false on the code: two same-day rows
labelled with different zones are both summed, giving 30 — which is
neither zone's own contribution (10 or 20), so no single-zone
restriction takes place. -/
theorem c9_zone_counterexample :
    build_demand_profile flowsZones = [⟨20301, 30⟩]
    ∧ flowsZones.rows.map (fun r => cellStr (getCell r "zonename")) = ["Zone A", "Zone B"]
    ∧ flowsZones.rows.map (fun r => toNum (getCell r "demand")) = [some 10, some 20]
    ∧ (30 : ℚ) ≠ 10 ∧ (30 : ℚ) ≠ 20 := by
  exact ⟨by with_unfolding_all rfl, rfl, rfl, by decide, by decide⟩

/-- C9, amended: `build_demand_profile` aggregates to at most one output
row per GasDay, with TJ_Demand the sum of the demand values of all
date-parseable rows sharing that date — across every zone present, with
no zone restriction. -/
theorem c9_demand_aggregation (flows : Table) (hd : "gasdate" ∈ flows.cols)
    (hm : "demand" ∈ flows.cols) :
    ((build_demand_profile flows).map (fun r => r.GasDay)).Nodup
    ∧ ∀ r ∈ build_demand_profile flows,
        r.TJ_Demand = demandSum flows "gasdate" r.GasDay := by
  rw [build_demand_profile_eq flows hd hm]
  constructor
  · rw [List.map_map]
    have hid : ((fun r : DemandRow => r.GasDay)
        ∘ (fun g => (⟨g, demandSum flows "gasdate" g⟩ : DemandRow))) = id := by
      funext g
      rfl
    rw [hid, List.map_id]
    exact (List.perm_insertionSort _ _).nodup_iff.mpr (List.nodup_dedup _)
  · intro r hr
    obtain ⟨g, _, rfl⟩ := List.mem_map.mp hr
    rfl

/-- C9, witness: the two-zone table satisfies the amended aggregation
property. -/
theorem c9_demand_aggregation_witness :
    ("gasdate" ∈ flowsZones.cols ∧ "demand" ∈ flowsZones.cols)
    ∧ ((build_demand_profile flowsZones).map (fun r => r.GasDay)).Nodup := by
  exact ⟨⟨by decide, by decide⟩,
    (c9_demand_aggregation flowsZones (by decide) (by decide)).1⟩

/-- C10: `clean_mto` silently drops every production-class row whose date
cell fails to parse — the output length equals the number of
production-class rows with a parseable date, so no row survives with a
null or sentinel date and no error is raised (the embedding is total). -/
theorem c10_unparseable_dropped (df : Table) (ht : "facilitytype" ∈ df.cols)
    (hd : "fromgasdate" ∈ df.cols) (hc : "outlookquantity" ∈ df.cols) :
    (clean_mto df).length
      = (df.rows.filter isProd).countP
          (fun r => (parseDate (getCell r "fromgasdate")).isSome) :=
  clean_mto_length df ht hd hc

/-- C10, witness: the table with one parseable and one unparseable date
keeps exactly the parseable row. -/
theorem c10_unparseable_witness :
    ("facilitytype" ∈ mtoTableBadDate.cols ∧ "fromgasdate" ∈ mtoTableBadDate.cols
      ∧ "outlookquantity" ∈ mtoTableBadDate.cols)
    ∧ (clean_mto mtoTableBadDate).length
        = (mtoTableBadDate.rows.filter isProd).countP
            (fun r => (parseDate (getCell r "fromgasdate")).isSome)
    ∧ (clean_mto mtoTableBadDate).length = 1 := by
  exact ⟨⟨by decide, by decide, by decide⟩,
    c10_unparseable_dropped mtoTableBadDate (by decide) (by decide) (by decide), by decide⟩

end GasDash
